import Mathlib

/-!
# Verification of the sentilysis ingestion-to-canonical-record pipeline

Shallow embedding of the core of `vinny-nguyen/sentilysis` (backend/app):
the canonicalization scripts (`summarize_reddit.py`, `summarize_news.py`),
the deduplicating store step of `GenerationService.generate_and_store_overviews`,
the validation in `OverviewService.create_one`, and the aggregation in
`SentimentService`.  Python dictionaries become structures with `Option`-valued
fields (a `none` field models an absent dictionary key); floats that the code
only produces as decimal literals are modelled as rationals; code that raises
is modelled with `Except`; external calls (the Gemini service) are modelled by
passing their outcome as an `Except` argument.
-/

/-- The embedded `sentiment` sub-dictionary of an overview record
(keys `summary`, `view`, `tone`); a `none` field models a missing key. -/
structure SentimentData where
  summary : Option String
  view : Option String
  tone : Option String
deriving DecidableEq, Repr, Inhabited

/-- An overview-record dictionary as passed to `OverviewService.create_one`
and produced by `summarize_reddit.py` / `summarize_news.py`.
`type_` embeds the Python key `type`.  `sentiment_score` is a rational
modelling the Python float. -/
structure OverviewData where
  post_id : Option String
  date : Option String
  ticker : Option String
  title : Option String
  sentiment : Option SentimentData
  source_link : Option String
  type_ : Option String
  sentiment_score : Option ℚ
deriving DecidableEq, Repr, Inhabited

/-- Python `str.lower` (character-wise; the enum labels are ASCII). -/
def strLower (s : String) : String := ⟨s.data.map Char.toLower⟩

/-- Python `str.upper` (character-wise; tickers are ASCII). -/
def strUpper (s : String) : String := ⟨s.data.map Char.toUpper⟩

/-- Python slicing `s[:n]`. -/
def strTake (s : String) (n : Nat) : String := ⟨s.data.take n⟩

/-- `_convert_view_to_score` from `summarize_reddit.py` (lines 96-104) and
`summarize_news.py` (lines 202-210): lower-case the view, map `positive` to
`0.8`, `negative` to `-0.8`, everything else to `0.0`. -/
def convert_view_to_score (view : String) : ℚ :=
  let view_lower := strLower view
  if view_lower = "positive" then 0.8
  else if view_lower = "negative" then -0.8
  else 0.0

/-- Gregorian leap-year rule, as used by Python `datetime.date`. -/
def isLeapYear (y : Nat) : Bool :=
  y % 4 == 0 && (y % 100 != 0 || y % 400 == 0)

/-- Number of days in a month, as validated by Python `datetime.date`. -/
def daysInMonth (y m : Nat) : Nat :=
  if m = 2 then (if isLeapYear y then 29 else 28)
  else if m = 4 ∨ m = 6 ∨ m = 9 ∨ m = 11 then 30
  else 31

/-- Split a character list on a separator character (the shape of
`str.split("-")` needed by the date parser). -/
def splitOnChar (sep : Char) : List Char → List (List Char)
  | [] => [[]]
  | c :: rest =>
    let r := splitOnChar sep rest
    if c = sep then [] :: r
    else
      match r with
      | [] => [[c]]
      | g :: gs => (c :: g) :: gs

/-- Read a non-empty all-digit character list as a natural number. -/
def digitsToNat (cs : List Char) : Option Nat :=
  if cs.isEmpty then none
  else if cs.all Char.isDigit then
    some (cs.foldl (fun n c => n * 10 + (c.toNat - 48)) 0)
  else none

/-- `datetime.strptime(s, "%Y-%m-%d")` as a partial parser: the year is
exactly four digits, month and day one or two digits, the whole string is
consumed, and the triple must be a valid calendar date with year at least 1
(Python `MINYEAR`).  Returns the `(year, month, day)` triple on success. -/
def parseDate (s : String) : Option (Nat × Nat × Nat) :=
  match splitOnChar (Char.ofNat 45) s.data with
  | [ys, ms, ds] =>
    match digitsToNat ys, digitsToNat ms, digitsToNat ds with
    | some y, some m, some d =>
      if ys.length = 4 ∧ 1 ≤ y ∧ ms.length ≤ 2 ∧ 1 ≤ m ∧ m ≤ 12 ∧
         ds.length ≤ 2 ∧ 1 ≤ d ∧ d ≤ daysInMonth y m
      then some (y, m, d) else none
    | _, _, _ => none
  | _ => none

/-- The character for decimal digit `n % 10`. -/
def digitChar (n : Nat) : Char := Char.ofNat (48 + n % 10)

/-- Two-digit zero-padded form, as in `str(datetime.date(...))`. -/
def pad2 (n : Nat) : List Char := [digitChar (n / 10), digitChar n]

/-- Four-digit zero-padded form, as in `str(datetime.date(...))`. -/
def pad4 (n : Nat) : List Char :=
  [digitChar (n / 1000), digitChar (n / 100), digitChar (n / 10), digitChar n]

/-- `str(datetime.strptime(s, "%Y-%m-%d").date())`: the ISO form of a parsed
date triple. -/
def formatDate : Nat × Nat × Nat → String
  | (y, m, d) =>
    ⟨pad4 y ++ Char.ofNat 45 :: pad2 m ++ Char.ofNat 45 :: pad2 d⟩

/-- One parsed summarizer judgment, i.e. the dictionary extracted from the
AI reply by `clean_ai_responses` / `clean_ai_response`; fields may be absent
(`cleaned_item.get(..., default)` supplies defaults downstream). -/
structure ParsedJudgment where
  summary : Option String
  view : Option String
  tone : Option String
deriving DecidableEq, Repr, Inhabited

/-- One scraped reddit post as produced by `scrape_reddit` and consumed by
`get_summaries_for_ticker` (keys `title`, `summary`, `subreddit`, `date`,
`score`, `link`). -/
structure RedditPost where
  title : String
  summary : String
  subreddit : String
  date : String
  score : Int
  link : String
deriving DecidableEq, Repr, Inhabited

/-- The overview record built for one reddit post in
`get_summaries_for_ticker` (`summarize_reddit.py` lines 56-71).  Note the
source assigns the constant `""` to `post_id`. -/
def mkRedditOverview (ticker : String) (post : RedditPost)
    (cleaned : ParsedJudgment) : OverviewData :=
  { post_id := some ""
  , date := some (strTake post.date 10)
  , ticker := some (strUpper ticker)
  , title := some post.title
  , sentiment := some
      { summary := some (cleaned.summary.getD "No summary available")
      , view := some (cleaned.view.getD "neutral")
      , tone := some (cleaned.tone.getD "neutral") }
  , source_link := some ("https://reddit.com/r/" ++ post.link)
  , type_ := some "reddit"
  , sentiment_score := some (convert_view_to_score (cleaned.view.getD "neutral")) }

/-- The overview record built for one news article in
`summarize_article_to_overview` (`summarize_news.py` lines 154-170); `today`
stands for `datetime.utcnow().strftime("%Y-%m-%d")`.  The source assigns the
constant `""` to `post_id` (its own comment says "Generate unique ID from URL
hash"). -/
def mkNewsOverview (url ticker articleTitle today : String)
    (cleaned : ParsedJudgment) : OverviewData :=
  { post_id := some ""
  , date := some today
  , ticker := some (strUpper ticker)
  , title := some articleTitle
  , sentiment := some
      { summary := some (cleaned.summary.getD "No summary available")
      , view := some (cleaned.view.getD "neutral")
      , tone := some (cleaned.tone.getD "neutral") }
  , source_link := some url
  , type_ := some "google"
  , sentiment_score := some (convert_view_to_score (cleaned.view.getD "neutral")) }

/-- The pure core of `get_summaries_for_ticker` (`summarize_reddit.py`
lines 46-73): `parsed` is, per post, the result of extracting a JSON object
from the AI reply for that post (`none` when `clean_ai_responses` finds no
parsable object and drops the entry via `continue`).  The cleaned list is
then walked by index `i`, reading `reddit_data[i]` for the post metadata. -/
def getSummariesCore (ticker : String) (posts : List RedditPost)
    (parsed : List (Option ParsedJudgment)) : List OverviewData :=
  let cleaned := parsed.filterMap id
  cleaned.enum.map (fun ic => mkRedditOverview ticker (posts.getD ic.1 default) ic.2)

/-- `OverviewService.create_one` (`overview_service.py` lines 40-109), the
validation-and-normalization part; the store write itself is modelled in
`storeStep`.  Checks run in source order: the seven required top-level keys,
the three required `sentiment` sub-keys, the `type` enum (exact match against
the lowercase `SourceType` values), the `sentiment.view` enum (exact match
against the lowercase `SentimentView` values), then the date string is parsed
with `strptime("%Y-%m-%d")` and replaced by its ISO form.  The final
`float(record_data["sentiment_score"])` is the identity on the rational
model of an already-numeric score.  Any `ValueError` is an `Except.error`. -/
def checkOverview (rec : OverviewData) : Option String :=
  if rec.post_id.isNone then some "Missing required field: post_id"
  else if rec.date.isNone then some "Missing required field: date"
  else if rec.ticker.isNone then some "Missing required field: ticker"
  else if rec.title.isNone then some "Missing required field: title"
  else
    match rec.sentiment with
    | none => some "Missing required field: sentiment"
    | some sd =>
      if rec.source_link.isNone then some "Missing required field: source_link"
      else if rec.type_.isNone then some "Missing required field: type"
      else if sd.summary.isNone then some "Missing required sentiment field: summary"
      else if sd.view.isNone then some "Missing required sentiment field: view"
      else if sd.tone.isNone then some "Missing required sentiment field: tone"
      else if ¬ (rec.type_ = some "reddit" ∨ rec.type_ = some "google") then
        some "Invalid type. Must be one of: reddit, google"
      else if ¬ (sd.view = some "positive" ∨ sd.view = some "neutral" ∨
                 sd.view = some "negative") then
        some "Invalid sentiment view. Must be one of: positive, neutral, negative"
      else none

/-- The tail of `create_one` after the checks pass: the date string is parsed
and replaced by its ISO normal form, and the record is stored unchanged
otherwise. -/
def createOne (rec : OverviewData) : Except String OverviewData :=
  match checkOverview rec with
  | some msg => .error msg
  | none =>
    match rec.date with
    | none => .error "Missing required field: date"
    | some d =>
      match parseDate d with
      | none => .error "Invalid date format. Use YYYY-MM-DD"
      | some ymd => .ok { rec with date := some (formatDate ymd) }

/-- The overview collection, as the sequence of stored records. -/
abbrev Store := List OverviewData

/-- The two per-ticker counters logged by
`GenerationService.generate_and_store_overviews` (line 110): created records
and skipped duplicates.  The run emits no other per-ticker counter. -/
structure RunCounters where
  created : Nat
  skipped : Nat
deriving DecidableEq, Repr

/-- One iteration of the storing loop in
`GenerationService.generate_and_store_overviews` (lines 91-107): look the
`post_id` up first (`OverviewService.get_by_post_id`, an explicit existence
check); on a hit count a skip and continue; otherwise run
`OverviewService.create_one`, counting a creation on success; an exception is
caught and logged, changing neither counter. -/
def storeStep : Store × RunCounters → OverviewData → Store × RunCounters
  | (store, c), ov =>
    if store.any (fun r => r.post_id == ov.post_id) then
      (store, { c with skipped := c.skipped + 1 })
    else
      match createOne ov with
      | .ok r => (store ++ [r], { c with created := c.created + 1 })
      | .error _ => (store, c)

/-- The full storing loop over a ticker batch of overview records, starting
from counters `created = 0, skipped = 0` (lines 88-110). -/
def storeRun (store : Store) (ovs : List OverviewData) : Store × RunCounters :=
  ovs.foldl storeStep (store, ⟨0, 0⟩)

/-- Number of stored records carrying a given `post_id`. -/
def countPostId (store : Store) (pid : Option String) : Nat :=
  store.countP (fun r => r.post_id == pid)

/-- The pure core of `generate_news_overviews` (`summarize_news.py` lines
242-266): `outcomes` is, per scraped article, the value returned by
`summarize_article_to_overview` for it (`none` when that call returned `None`
after catching an exception or rejecting the reply; articles without a URL
are likewise skipped with a log line).  Failed articles are logged and
dropped; the surviving records are collected in order. -/
def generateNewsOverviews (outcomes : List (Option OverviewData)) : List OverviewData :=
  outcomes.filterMap id

/-- The `SentimentType` enum of `models/sentiment.py`. -/
inductive SentimentType where
  | positive
  | neutral
  | negative
deriving DecidableEq, Repr

/-- One `SentimentAnalysis` record (`models/sentiment.py` lines 30-40);
`created_at` (wall clock) is not modelled. -/
structure SentimentAnalysisRec where
  post_id : String
  ticker : String
  sentiment : SentimentType
  confidence : ℚ
  summary : String
  key_points : List String
  geopolitical_events : List String
  macroeconomic_factors : List String
deriving DecidableEq, Repr

/-- The summary-data dictionary returned by `GeminiService.generate_summary`;
`none` fields model keys the parsed reply may be missing (the aggregator reads
them with `.get(key, default)`).  `investor_insights` and `overall_sentiment`
are present in the dictionary but never read by the aggregator. -/
structure SummaryData where
  top_headlines : Option (List String)
  geopolitical_summary : Option String
  macro_summary : Option String
deriving DecidableEq, Repr

/-- One `SentimentSummary` record (`models/sentiment.py` lines 42-54);
`last_updated` (wall clock) is not modelled. -/
structure SentimentSummaryRec where
  ticker : String
  total_posts : Nat
  positive_count : Nat
  neutral_count : Nat
  negative_count : Nat
  overall_sentiment : SentimentType
  average_confidence : ℚ
  top_headlines : List String
  geopolitical_summary : String
  macro_summary : String
deriving DecidableEq, Repr

/-- One of the three tallies `sum(1 for s in sentiment_results if
s.sentiment == ...)` in `_create_sentiment_summary`. -/
def countSentiment (results : List SentimentAnalysisRec) (t : SentimentType) : Nat :=
  results.countP (fun s => s.sentiment == t)

/-- `SentimentService._create_sentiment_summary` (`sentiment_service.py`
lines 159-202): tally the three views, average the confidences guarding the
zero-record case with `if total_posts > 0 else 0`, decide the overall
sentiment by comparing the positive and negative tallies, and read the
narrative fields out of `summary_data` with defaults. -/
def createSentimentSummary (ticker : String) (results : List SentimentAnalysisRec)
    (summaryData : SummaryData) : SentimentSummaryRec :=
  let positive_count := countSentiment results .positive
  let neutral_count := countSentiment results .neutral
  let negative_count := countSentiment results .negative
  let total_posts := results.length
  let average_confidence : ℚ :=
    if total_posts > 0 then (results.map (fun s => s.confidence)).sum / total_posts
    else 0
  let overall_sentiment : SentimentType :=
    if positive_count > negative_count then .positive
    else if negative_count > positive_count then .negative
    else .neutral
  { ticker := strUpper ticker
  , total_posts := total_posts
  , positive_count := positive_count
  , neutral_count := neutral_count
  , negative_count := negative_count
  , overall_sentiment := overall_sentiment
  , average_confidence := average_confidence
  , top_headlines := summaryData.top_headlines.getD []
  , geopolitical_summary := summaryData.geopolitical_summary.getD ""
  , macro_summary := summaryData.macro_summary.getD "" }

/-- The result dictionary obtained by parsing one Gemini sentiment reply
(`GeminiService._parse_sentiment_response`; the parse itself never fails, it
falls back to keyword detection). -/
structure ParsedSentiment where
  sentiment : SentimentType
  confidence : ℚ
  summary : String
  key_points : List String
  geopolitical_events : List String
  macroeconomic_factors : List String
deriving DecidableEq, Repr

/-- `GeminiService.analyze_sentiment` (`gemini_service.py` lines 18-71): the
external call plus parsing is modelled by its outcome `reply`; every
exception is caught and replaced by the neutral fallback record, so the
method never raises. -/
def geminiAnalyzeSentiment (ticker : String)
    (reply : Except String ParsedSentiment) : SentimentAnalysisRec :=
  match reply with
  | .ok r =>
    { post_id := ""
    , ticker := ticker
    , sentiment := r.sentiment
    , confidence := r.confidence
    , summary := r.summary
    , key_points := r.key_points
    , geopolitical_events := r.geopolitical_events
    , macroeconomic_factors := r.macroeconomic_factors }
  | .error _ =>
    { post_id := ""
    , ticker := ticker
    , sentiment := .neutral
    , confidence := 0.5
    , summary := "Unable to analyze sentiment due to an error."
    , key_points := []
    , geopolitical_events := []
    , macroeconomic_factors := [] }

/-- `GeminiService.generate_summary` (`gemini_service.py` lines 73-116): the
external call is modelled by its outcome `reply`; every exception is caught
and replaced by the fallback dictionary (lines 108-116), so the method never
raises. -/
def geminiGenerateSummary (reply : Except String SummaryData) : SummaryData :=
  match reply with
  | .ok sd => sd
  | .error _ =>
    { top_headlines := some []
    , geopolitical_summary := some "Unable to generate summary due to an error."
    , macro_summary := some "Unable to generate summary due to an error." }

/-- One mock post as consumed by `SentimentService.analyze_ticker`
(only `id` and `content` are read by the analysis loop). -/
structure MockPost where
  id : String
  content : String
deriving DecidableEq, Repr

/-- The response of `SentimentService.analyze_ticker` (fields of
`AnalysisResponse` relevant to the aggregation contract). -/
structure AnalysisResp where
  ticker : String
  sentiment_summary : SentimentSummaryRec
  status : String
deriving DecidableEq, Repr

/-- `update_one({"ticker": ...}, {"$set": summary.dict()}, upsert=True)` from
`_store_sentiment_summary`: replace the first summary stored under the same
ticker, or append when there is none. -/
def upsertSummary : List SentimentSummaryRec → SentimentSummaryRec →
    List SentimentSummaryRec
  | [], s => [s]
  | t :: rest, s =>
    if t.ticker == s.ticker then s :: rest else t :: upsertSummary rest s

/-- `SentimentService.analyze_ticker` (`sentiment_service.py` lines 24-79):
per post, run `geminiAnalyzeSentiment` on the reply outcome for that post and
attach the post id; build the summary data from the `generate_summary`
outcome; aggregate with `createSentimentSummary`; upsert the summary into the
summary store; answer with status `completed`.  Both Gemini wrappers absorb
their exceptions internally, so no named upstream failure reaches the
method's outer `except` branch. -/
def analyzeTicker (ticker : String) (posts : List MockPost)
    (sentReplies : List (Except String ParsedSentiment))
    (sumReply : Except String SummaryData)
    (summaryStore : List SentimentSummaryRec) :
    List SentimentSummaryRec × AnalysisResp :=
  let results := (posts.zip sentReplies).map
    (fun pr => { geminiAnalyzeSentiment ticker pr.2 with post_id := pr.1.id })
  let summaryData := geminiGenerateSummary sumReply
  let summary := createSentimentSummary ticker results summaryData
  ( upsertSummary summaryStore summary
  , { ticker := ticker, sentiment_summary := summary, status := "completed" } )

/-! ## Sample data used by witnesses and counterexamples -/

/-- A parsed judgment with a positive view. -/
def judgPos : ParsedJudgment :=
  { summary := some "strong earnings beat", view := some "positive"
  , tone := some "optimistic" }

/-- A parsed judgment with a negative view. -/
def judgNeg : ParsedJudgment :=
  { summary := some "guidance cut", view := some "negative", tone := some "bearish" }

/-- A parsed judgment with a neutral view. -/
def judgNeu : ParsedJudgment :=
  { summary := some "mixed quarter", view := some "neutral", tone := some "measured" }

/-- A judgment distinctive enough to trace which post it belongs to. -/
def judgForPostB : ParsedJudgment :=
  { summary := some "judgment computed for post B", view := some "negative"
  , tone := some "bearish" }

/-- A first scraped reddit post. -/
def postA : RedditPost :=
  { title := "Post A", summary := "summary A", subreddit := "stocks"
  , date := "2024-05-01T10:00:00", score := 10, link := "stocks/comments/aaa" }

/-- A second scraped reddit post, distinct from `postA` in every identifying
attribute. -/
def postB : RedditPost :=
  { title := "Post B", summary := "summary B", subreddit := "wallstreetbets"
  , date := "2024-05-02T11:00:00", score := 25, link := "wsb/comments/bbb" }

/-- The embedded sentiment of `sampleOverview`. -/
def sampleSentiment : SentimentData :=
  { summary := some "strong earnings beat", view := some "positive"
  , tone := some "optimistic" }

/-- A fully valid overview record with a non-empty `post_id`. -/
def sampleOverview : OverviewData :=
  { post_id := some "reddit-xyz"
  , date := some "2024-05-01"
  , ticker := some "AAPL"
  , title := some "Sample title"
  , sentiment := some sampleSentiment
  , source_link := some "https://reddit.com/r/stocks/comments/xyz"
  , type_ := some "reddit"
  , sentiment_score := some 0.8 }

/-- `sampleOverview` with the view spelled `Positive` (capital P) and all
other fields untouched. -/
def samplePositiveCased : OverviewData :=
  { sampleOverview with
    sentiment := some
      { summary := some "strong earnings beat", view := some "Positive"
      , tone := some "optimistic" } }

/-- The overview record the news pipeline produces for one article named by
`n`, judged positive, on a fixed run date. -/
def newsArticle (n : String) : OverviewData :=
  mkNewsOverview ("https://news.example/" ++ n) "AAPL" ("Article " ++ n)
    "2024-05-01" judgPos

/-- All `create_one` validation conditions other than the `sentiment.view`
enum check and the sub-field presence checks: the required top-level keys are
present, the `type` enum value is valid, and the date string parses. -/
def otherChecksPass (rec : OverviewData) : Prop :=
  rec.post_id.isSome ∧ rec.ticker.isSome ∧ rec.title.isSome ∧
  rec.source_link.isSome ∧
  (rec.type_ = some "reddit" ∨ rec.type_ = some "google") ∧
  ∃ d, rec.date = some d ∧ (parseDate d).isSome

/-! ## Helper lemmas -/

/-- The reddit record constructor stores the score computed from the
defaulted view. -/
theorem mkRedditOverview_score (ticker : String) (post : RedditPost)
    (c : ParsedJudgment) :
    (mkRedditOverview ticker post c).sentiment_score =
      some (convert_view_to_score (c.view.getD "neutral")) := rfl

/-- The news record constructor stores the score computed from the defaulted
view. -/
theorem mkNewsOverview_score (url ticker articleTitle today : String)
    (c : ParsedJudgment) :
    (mkNewsOverview url ticker articleTitle today c).sentiment_score =
      some (convert_view_to_score (c.view.getD "neutral")) := rfl

/-- Evaluation of the score map on the canonical view `positive`. -/
theorem convert_view_to_score_positive : convert_view_to_score "positive" = 0.8 := rfl

/-- Evaluation of the score map on the canonical view `negative`. -/
theorem convert_view_to_score_negative : convert_view_to_score "negative" = -0.8 := rfl

/-- Evaluation of the score map on the canonical view `neutral`. -/
theorem convert_view_to_score_neutral : convert_view_to_score "neutral" = 0.0 := rfl

/-! ## Claim theorems -/

/-- C3: the view-to-score mapping is the fixed deterministic function: for
every produced overview record (reddit or news), an effective view of
`positive` gives `sentiment_score = 0.8`, `negative` gives `-0.8`, and
`neutral` gives `0.0`. -/
theorem c3_view_score_mapping (ticker url articleTitle today : String)
    (post : RedditPost) (c : ParsedJudgment) :
    (c.view.getD "neutral" = "positive" →
      (mkRedditOverview ticker post c).sentiment_score = some 0.8 ∧
      (mkNewsOverview url ticker articleTitle today c).sentiment_score = some 0.8) ∧
    (c.view.getD "neutral" = "negative" →
      (mkRedditOverview ticker post c).sentiment_score = some (-0.8) ∧
      (mkNewsOverview url ticker articleTitle today c).sentiment_score = some (-0.8)) ∧
    (c.view.getD "neutral" = "neutral" →
      (mkRedditOverview ticker post c).sentiment_score = some 0.0 ∧
      (mkNewsOverview url ticker articleTitle today c).sentiment_score = some 0.0) := by
  refine ⟨fun h => ?_, fun h => ?_, fun h => ?_⟩ <;>
    rw [mkRedditOverview_score, mkNewsOverview_score, h] <;>
    exact ⟨rfl, rfl⟩

/-- C3 witness: the three implications at concrete positive, negative and
neutral judgments. -/
theorem c3_view_score_mapping_witness :
    (mkRedditOverview "AAPL" postA judgPos).sentiment_score = some 0.8 ∧
    (mkRedditOverview "AAPL" postA judgNeg).sentiment_score = some (-0.8) ∧
    (mkRedditOverview "AAPL" postA judgNeu).sentiment_score = some 0.0 :=
  ⟨((c3_view_score_mapping "AAPL" "u" "t" "2024-05-01" postA judgPos).1 rfl).1,
   ((c3_view_score_mapping "AAPL" "u" "t" "2024-05-01" postA judgNeg).2.1 rfl).1,
   ((c3_view_score_mapping "AAPL" "u" "t" "2024-05-01" postA judgNeu).2.2 rfl).1⟩

/-- C10: the view-to-score conversion is total on strings and never yields
anything but `0.8`, `-0.8` or `0.0`; any string whose lower-cased form is
neither `positive` nor `negative` (unknown labels, the empty string) maps to
`0.0`. -/
theorem c10_total_default_neutral (s : String) :
    (convert_view_to_score s = 0.8 ∨ convert_view_to_score s = -0.8 ∨
      convert_view_to_score s = 0.0) ∧
    (strLower s ≠ "positive" → strLower s ≠ "negative" →
      convert_view_to_score s = 0.0) := by
  unfold convert_view_to_score
  by_cases h1 : strLower s = "positive" <;>
    by_cases h2 : strLower s = "negative" <;>
    simp [h1, h2]

/-- C10 witness: the unknown label `bullish` and the empty string both map
to the neutral score. -/
theorem c10_total_default_neutral_witness :
    convert_view_to_score "bullish" = 0.0 ∧ convert_view_to_score "" = 0.0 :=
  ⟨(c10_total_default_neutral "bullish").2 (by decide) (by decide),
   (c10_total_default_neutral "").2 (by decide) (by decide)⟩

/-- C5: aggregation is total on empty input: the summary recomputed from an
empty sequence of judgments has total 0, all three counts 0, neutral overall
sentiment and average confidence 0 (the zero-record mean is defined as 0 by
the guard, so nothing is raised). -/
theorem c5_aggregation_empty_total (ticker : String) (sd : SummaryData) :
    (createSentimentSummary ticker [] sd).total_posts = 0 ∧
    (createSentimentSummary ticker [] sd).positive_count = 0 ∧
    (createSentimentSummary ticker [] sd).neutral_count = 0 ∧
    (createSentimentSummary ticker [] sd).negative_count = 0 ∧
    (createSentimentSummary ticker [] sd).overall_sentiment = .neutral ∧
    (createSentimentSummary ticker [] sd).average_confidence = 0 := by
  refine ⟨rfl, rfl, rfl, rfl, rfl, rfl⟩

/-- C6: the aggregated overall sentiment is positive exactly when the
positive tally exceeds the negative one, negative exactly when the negative
tally exceeds the positive one, and neutral exactly on ties (including the
empty case). -/
theorem c6_overall_sentiment_rule (ticker : String)
    (results : List SentimentAnalysisRec) (sd : SummaryData) :
    ((createSentimentSummary ticker results sd).overall_sentiment = .positive ↔
      (createSentimentSummary ticker results sd).positive_count >
        (createSentimentSummary ticker results sd).negative_count) ∧
    ((createSentimentSummary ticker results sd).overall_sentiment = .negative ↔
      (createSentimentSummary ticker results sd).negative_count >
        (createSentimentSummary ticker results sd).positive_count) ∧
    ((createSentimentSummary ticker results sd).overall_sentiment = .neutral ↔
      (createSentimentSummary ticker results sd).positive_count =
        (createSentimentSummary ticker results sd).negative_count) := by
  simp only [createSentimentSummary]
  split_ifs with h1 h2 <;> simp_all <;> omega

/-- C2: the canonicalization step does not derive `item_id` from the origin
identifier at all: two raw items with distinct origins (distinct article
URLs, distinct reddit permalinks) both receive the constant `post_id` `""`. -/
theorem c2_constant_post_id :
    (mkNewsOverview "https://news.example/a" "AAPL" "Article A" "2024-05-01"
        judgPos).post_id = some "" ∧
    (mkNewsOverview "https://news.example/b" "AAPL" "Article B" "2024-05-01"
        judgPos).post_id = some "" ∧
    ("https://news.example/a" : String) ≠ "https://news.example/b" ∧
    (mkRedditOverview "AAPL" postA judgPos).post_id =
      (mkRedditOverview "AAPL" postB judgPos).post_id ∧
    postA.link ≠ postB.link :=
  ⟨rfl, rfl, by decide, rfl, by decide⟩

/-- C9: with two posts whose first AI reply is unparsable (and therefore
dropped by `clean_ai_responses`), the single produced record combines the
metadata of post A with the judgment computed for post B: the pairing is by
position in the cleaned list, not by origin. -/
theorem c9_misaligned_pairing :
    getSummariesCore "AAPL" [postA, postB] [none, some judgForPostB] =
      [mkRedditOverview "AAPL" postA judgForPostB] ∧
    (mkRedditOverview "AAPL" postA judgForPostB).title = some "Post A" ∧
    (mkRedditOverview "AAPL" postA judgForPostB).sentiment = some
      { summary := some "judgment computed for post B", view := some "negative"
      , tone := some "bearish" } ∧
    postA.title ≠ postB.title :=
  ⟨rfl, rfl, rfl, by decide⟩

/-- `create_one` only normalizes the date; it never rewrites `post_id`. -/
theorem createOne_post_id_eq {rec rec' : OverviewData}
    (h : createOne rec = .ok rec') : rec'.post_id = rec.post_id := by
  unfold createOne at h
  repeat' split at h
  all_goals try exact Except.noConfusion h
  injection h with h2
  subst h2
  rfl

/-- C1: inserting the same canonical record twice through the pipeline's
store step leaves exactly one stored record under its `post_id`, with the
second attempt counted as a skipped duplicate (not an error), because the
explicit `get_by_post_id` lookup precedes each insert. -/
theorem c1_idempotent_insert (rec rec' : OverviewData) (store : Store)
    (hok : createOne rec = .ok rec')
    (hfresh : countPostId store rec.post_id = 0) :
    countPostId (storeRun store [rec, rec]).1 rec.post_id = 1 ∧
    (storeRun store [rec, rec]).2.created = 1 ∧
    (storeRun store [rec, rec]).2.skipped = 1 := by
  have hpid := createOne_post_id_eq hok
  have hany : store.any (fun r => r.post_id == rec.post_id) = false := by
    simp only [List.any_eq_false, beq_iff_eq]
    intro x hx heq
    exact List.countP_eq_zero.mp hfresh x hx (by simp [heq])
  have hany2 : (store ++ [rec']).any (fun r => r.post_id == rec.post_id) = true := by
    rw [List.any_eq_true]
    exact ⟨rec', by simp, by simp [hpid]⟩
  have hstep1 : storeStep (store, ⟨0, 0⟩) rec = (store ++ [rec'], ⟨1, 0⟩) := by
    simp [storeStep, hany, hok]
  have hstep2 : storeStep (store ++ [rec'], ⟨1, 0⟩) rec = (store ++ [rec'], ⟨1, 1⟩) := by
    simp [storeStep, hany2]
  have hrun : storeRun store [rec, rec] = (store ++ [rec'], ⟨1, 1⟩) := by
    rw [storeRun, List.foldl_cons, hstep1, List.foldl_cons, hstep2, List.foldl_nil]
  rw [hrun]
  refine ⟨?_, rfl, rfl⟩
  simp [countPostId, List.countP_append, List.countP_cons, hfresh, hpid]
  intro a ha heq
  exact List.countP_eq_zero.mp hfresh a ha (by simp [heq])

/-- C1 witness: the idempotent-insert property at a concrete valid record
inserted twice into an empty store. -/
theorem c1_idempotent_insert_witness :
    countPostId (storeRun [] [sampleOverview, sampleOverview]).1
      sampleOverview.post_id = 1 ∧
    (storeRun [] [sampleOverview, sampleOverview]).2.created = 1 ∧
    (storeRun [] [sampleOverview, sampleOverview]).2.skipped = 1 :=
  c1_idempotent_insert sampleOverview sampleOverview [] rfl rfl

/-- C4 counterexample: a batch of five news items whose third item raises
during canonicalization.  The claim asserts items 1, 2, 4, 5 are inserted
and the failure counted once; on the code, the constant `post_id` makes
items 2, 4, 5 duplicates of item 1, so the run creates exactly one record,
skips three, and its emitted counters (created and skipped only) carry no
failure count at all. -/
theorem c4_counterexample :
    (storeRun [] (generateNewsOverviews
        [some (newsArticle "one"), some (newsArticle "two"), none,
         some (newsArticle "four"), some (newsArticle "five")])).2.created = 1 ∧
    (storeRun [] (generateNewsOverviews
        [some (newsArticle "one"), some (newsArticle "two"), none,
         some (newsArticle "four"), some (newsArticle "five")])).2.skipped = 3 ∧
    (storeRun [] (generateNewsOverviews
        [some (newsArticle "one"), some (newsArticle "two"), none,
         some (newsArticle "four"), some (newsArticle "five")])).1.length = 1 ∧
    ¬ (storeRun [] (generateNewsOverviews
        [some (newsArticle "one"), some (newsArticle "two"), none,
         some (newsArticle "four"), some (newsArticle "five")])).2.created = 4 := by
  have h1 : (storeRun [] (generateNewsOverviews
      [some (newsArticle "one"), some (newsArticle "two"), none,
       some (newsArticle "four"), some (newsArticle "five")])).2.created = 1 := rfl
  exact ⟨h1, rfl, rfl, by omega⟩

/-- C4 amended: item-level failure isolation does hold — a canonicalization
failure contributes nothing and the rest of the batch is processed exactly
as if the failed item were absent; the failure itself is only logged, never
counted in the run's emitted counters. -/
theorem c4_failure_isolation_amended (pre post : List (Option OverviewData))
    (store : Store) :
    storeRun store (generateNewsOverviews (pre ++ none :: post)) =
      storeRun store (generateNewsOverviews (pre ++ post)) := by
  have h : generateNewsOverviews (pre ++ none :: post) =
      generateNewsOverviews (pre ++ post) := by
    simp [generateNewsOverviews, List.filterMap_append, List.filterMap_cons]
  rw [h]

/-- The upserted summary is always present in the summary store afterwards. -/
theorem mem_upsertSummary_self (store : List SentimentSummaryRec)
    (s : SentimentSummaryRec) : s ∈ upsertSummary store s := by
  induction store with
  | nil => simp [upsertSummary]
  | cons t rest ih =>
    unfold upsertSummary
    split
    · exact List.mem_cons_self _ _
    · exact List.mem_cons_of_mem _ ih

/-- C7: when the external summary-generation call fails (outcome
`Except.error e`) and regardless of how many per-post analyses failed, the
aggregation path still upserts a SentimentSummary for the ticker into the
summary store — populated with the fallback narrative text and the counts
computed from the per-post results — and answers its caller with status
`completed` instead of raising. -/
theorem c7_fallback_summary_written (ticker : String) (posts : List MockPost)
    (sentReplies : List (Except String ParsedSentiment)) (e : String)
    (summaryStore : List SentimentSummaryRec) :
    (∃ s ∈ (analyzeTicker ticker posts sentReplies (.error e) summaryStore).1,
        s.ticker = strUpper ticker ∧
        s.geopolitical_summary = "Unable to generate summary due to an error." ∧
        s.macro_summary = "Unable to generate summary due to an error." ∧
        s.total_posts = (posts.zip sentReplies).length) ∧
    (analyzeTicker ticker posts sentReplies (.error e) summaryStore).2.status =
      "completed" := by
  constructor
  · refine ⟨createSentimentSummary ticker
      ((posts.zip sentReplies).map
        (fun pr => { geminiAnalyzeSentiment ticker pr.2 with post_id := pr.1.id }))
      (geminiGenerateSummary (.error e)), ?_, rfl, rfl, rfl, ?_⟩
    · exact mem_upsertSummary_self _ _
    · simp [createSentimentSummary]
  · rfl

/-- C8 counterexample: a record that is valid in every respect except that
its view is spelled `Positive` is rejected by `create_one` — the enum match
is exact and case-sensitive, with no lowercase normalization — whereas the
claim says creation succeeds and stores `positive`. -/
theorem c8_counterexample :
    createOne samplePositiveCased =
      .error "Invalid sentiment view. Must be one of: positive, neutral, negative" :=
  rfl

/-- C8 amended: record creation accepts exactly the three lowercase enum
values under an exact, case-sensitive comparison, and stores the sentiment
(including the view) unchanged — no case-insensitive match and no lowercase
normalization; every other view value, including other casings, is
rejected. -/
theorem c8_case_sensitive_validation (rec : OverviewData) (sd : SentimentData)
    (hother : otherChecksPass rec) (hsd : rec.sentiment = some sd)
    (hsum : sd.summary.isSome) (htone : sd.tone.isSome) :
    ((createOne rec).isOk ↔
      (sd.view = some "positive" ∨ sd.view = some "neutral" ∨
        sd.view = some "negative")) ∧
    (∀ rec', createOne rec = .ok rec' → rec'.sentiment = some sd) := by
  obtain ⟨pid, date, tick, title, sent, slink, ty, score⟩ := rec
  obtain ⟨hp, ht, hti, hsl, hty, d, hd, hpd⟩ := hother
  dsimp only at hp ht hti hsl hty hd hpd hsd
  subst hsd
  subst hd
  obtain ⟨p, rfl⟩ := Option.isSome_iff_exists.mp hp
  obtain ⟨t, rfl⟩ := Option.isSome_iff_exists.mp ht
  obtain ⟨ti, rfl⟩ := Option.isSome_iff_exists.mp hti
  obtain ⟨sl, rfl⟩ := Option.isSome_iff_exists.mp hsl
  obtain ⟨s1, hs1⟩ := Option.isSome_iff_exists.mp hsum
  obtain ⟨s3, hs3⟩ := Option.isSome_iff_exists.mp htone
  obtain ⟨ymd, hymd⟩ := Option.isSome_iff_exists.mp hpd
  by_cases hv : sd.view = some "positive" ∨ sd.view = some "neutral" ∨
      sd.view = some "negative"
  · rcases hty with rfl | rfl <;> rcases hv with hv | hv | hv <;>
      refine ⟨?_, fun rec' hok => ?_⟩ <;>
      simp_all [createOne, checkOverview, hymd, Except.isOk, Except.toBool] <;>
      exact hok ▸ rfl
  · rcases hty with rfl | rfl <;>
      rcases hview : sd.view with _ | v <;>
      refine ⟨?_, fun rec' hok => ?_⟩ <;>
      simp_all [createOne, checkOverview, hymd, Except.isOk, Except.toBool]

/-- C8 witness: the amended validation at a concrete record whose view is
exactly `positive`: creation succeeds. -/
theorem c8_case_sensitive_validation_witness : (createOne sampleOverview).isOk :=
  (c8_case_sensitive_validation sampleOverview sampleSentiment
    ⟨rfl, rfl, rfl, rfl, Or.inl rfl, "2024-05-01", rfl, rfl⟩
    rfl rfl rfl).1.mpr (Or.inl rfl)
